import Mathlib

/-!
# Verification development for `colors/color.py`

A shallow embedding of the `Color` class and the `ColorWheel` generator of
`colors/color.py`, together with theorems settling the specification claims
about them.

Modelling conventions:

* Python numbers that flow through the module are modelled as rationals
  (`ℚ`).  All arithmetic the module performs (channel arithmetic, the
  `colorsys` conversions) is exact on rationals.  The model identifies a
  Python `int` with an integral rational; the one place the `int`/`float`
  type tag matters in the source is `format(x, "x")`, which raises
  `ValueError` on every `float`: the model raises there exactly on
  non-integral rationals.  This makes strictly more constructions succeed
  than in Python (an integral `float` channel would also raise), and every
  such extra success satisfies the properties proved below, so no claim's
  truth value depends on the difference.
* Python statements that raise are modelled with `Except PyErr`; a raised
  exception propagates and leaves any mutable state of the caller
  unchanged, exactly as in Python.
* The ambient random sources (`random.randrange` in `randomize`, the
  `random_.random()` draw in `ColorWheel.next`) are modelled as explicit
  arguments where they are reachable.
* Rational division is total in Lean (`x / 0 = 0`) while Python raises
  `ZeroDivisionError`; in every reachable call below the divisor is
  guarded to be nonzero by the surrounding conditionals, so the two agree
  on everything reachable from the module.
-/

deriving instance DecidableEq for Except

namespace Colors

/-- Kinds of Python exception the module can raise.  `valueError` is the
spec's `ValidationError`, `zeroDivisionError` its `DivisionError`. -/
inductive PyErr where
  | valueError (msg : String)
  | typeError (msg : String)
  | nameError (missing : String)
  | attributeError (missing : String)
  | zeroDivisionError
deriving DecidableEq

/-- Characters matched by the regex class `[a-fA-F0-9]` of
`HEX_COLOR_PATTERN`. -/
def isHexDigit (c : Char) : Bool :=
  decide (c ∈ ("0123456789abcdefABCDEF").toList)

/-- Value of one hex digit, as Python `int(-, base 16)` reads it
(case-insensitive). -/
def hexDigitVal (c : Char) : ℕ :=
  if c.toNat ≤ 57 then c.toNat - 48
  else if 97 ≤ c.toNat then c.toNat - 87
  else c.toNat - 55

/-- Python `int(g, base=16)` on a regex group `g`. -/
def hexPairVal (g : List Char) : ℕ :=
  g.foldl (fun a c => 16 * a + hexDigitVal c) 0

/-- Python `re.match(HEX_COLOR_PATTERN, s)` with pattern
`^#?([a-fA-F0-9]{2})([a-fA-F0-9]{2})([a-fA-F0-9]{2})$`: an optional leading
`#`, then exactly six hex digits, split into three two-character groups. -/
def hexMatch (s : String) : Option (List Char × List Char × List Char) :=
  let cs := s.toList
  let cs := if cs.head? = some '#' then cs.tail else cs
  match cs with
  | [a, b, c, d, e, f] =>
      if [a, b, c, d, e, f].all isHexDigit then some ([a, b], [c, d], [e, f])
      else none
  | _ => none

/-- Python `format(x, "x")`: lowercase hex digits of an integer, with no
zero padding.  A Python `float` raises `ValueError` here; in the rational
model that is every non-integral value (see the module comment above). -/
def pyFormatHex (q : ℚ) : Except PyErr String :=
  if q.den = 1 then
    .ok (if q.num < 0 then "-" ++ String.mk (Nat.toDigits 16 q.num.natAbs)
         else String.mk (Nat.toDigits 16 q.num.toNat))
  else .error (.valueError "Unknown format code x for object of type float")

/-- Python `str` of a channel value (an integral rational in every
reachable color). -/
def pyStrQ (q : ℚ) : String :=
  if q.den = 1 then toString q.num else toString q

/-- CPython `colorsys.rgb_to_hsv`, transcribed on rationals.  `x % 1.0` on
a float is `Int.fract` for rationals. -/
def rgb_to_hsv (r g b : ℚ) : ℚ × ℚ × ℚ :=
  let maxc := max r (max g b)
  let minc := min r (min g b)
  let rangec := maxc - minc
  let v := maxc
  if minc = maxc then (0, 0, v)
  else
    let s := rangec / maxc
    let rc := (maxc - r) / rangec
    let gc := (maxc - g) / rangec
    let bc := (maxc - b) / rangec
    let h := if r = maxc then bc - gc
             else if g = maxc then 2 + rc - bc
             else 4 + gc - rc
    (Int.fract (h / 6), s, v)

/-- CPython `colorsys.rgb_to_hls`, transcribed on rationals. -/
def rgb_to_hls (r g b : ℚ) : ℚ × ℚ × ℚ :=
  let maxc := max r (max g b)
  let minc := min r (min g b)
  let sumc := maxc + minc
  let rangec := maxc - minc
  let l := sumc / 2
  if minc = maxc then (0, l, 0)
  else
    let s := if l ≤ 1/2 then rangec / sumc else rangec / (2 - sumc)
    let rc := (maxc - r) / rangec
    let gc := (maxc - g) / rangec
    let bc := (maxc - b) / rangec
    let h := if r = maxc then bc - gc
             else if g = maxc then 2 + rc - bc
             else 4 + gc - rc
    (Int.fract (h / 6), l, s)

/-- CPython `colorsys.rgb_to_yiq`, transcribed on rationals. -/
def rgb_to_yiq (r g b : ℚ) : ℚ × ℚ × ℚ :=
  let y := (3/10) * r + (59/100) * g + (11/100) * b
  let i := (74/100) * (r - y) - (27/100) * (b - y)
  let q := (48/100) * (r - y) + (41/100) * (b - y)
  (y, i, q)

/-- Python `int()` truncation toward zero on a rational. -/
def pyTrunc (q : ℚ) : ℤ := q.num.tdiv q.den

/-- CPython `colorsys.hsv_to_rgb`, transcribed on rationals.  The module's
`from_hsv`/`from_yiq` name this function (unqualified, so the lookup fails
there), and the spec contrasts it with the YIQ inverse transform. -/
def hsv_to_rgb (h s v : ℚ) : ℚ × ℚ × ℚ :=
  if s = 0 then (v, v, v)
  else
    let i0 := pyTrunc (h * 6)
    let f := h * 6 - (i0 : ℚ)
    let p := v * (1 - s)
    let q := v * (1 - s * f)
    let t := v * (1 - s * (1 - f))
    let i := i0.emod 6
    if i = 0 then (v, t, p)
    else if i = 1 then (q, v, p)
    else if i = 2 then (p, v, t)
    else if i = 3 then (p, q, v)
    else if i = 4 then (t, p, v)
    else (v, p, q)

/-- The `Color` object.  `rgb` is whatever tuple the last `from_*` call
stored; the remaining fields are `none` until `_from_self_rgb` has set
them (Python attributes that do not exist yet). -/
structure Color where
  rgb : List ℚ
  rgb_fraction : Option (List ℚ) := none
  hex_triplet : Option String := none
  hsv : Option (ℚ × ℚ × ℚ) := none
  hls : Option (ℚ × ℚ × ℚ) := none
  yiq : Option (ℚ × ℚ × ℚ) := none
  color : Option (List ℚ) := none
deriving DecidableEq

/-- `Color._from_self_rgb`: when `self.rgb` is truthy (a nonempty tuple),
derives `rgb_fraction`, overwrites `hex_triplet` with the unpadded
`format(x, "x")` join, computes `hsv`/`hls`/`yiq` through `colorsys` (whose
functions take exactly three arguments, so any other tuple length raises
`TypeError`), and sets `color`; when `self.rgb` is empty it returns `None`,
leaving the other attributes as they were (`hex0` is the `hex_triplet` a
caller such as `from_hex_triplet` may already have set). -/
def Color.from_self_rgb (rgb : List ℚ) (hex0 : Option String) :
    Except PyErr Color :=
  if rgb.isEmpty then
    .ok { rgb := rgb, hex_triplet := hex0 }
  else do
    let frac := rgb.map (fun x => x / 255)
    let hexParts ← rgb.mapM pyFormatHex
    let hexT := String.join hexParts
    match frac with
    | [r, g, b] =>
        .ok { rgb := rgb, rgb_fraction := some frac, hex_triplet := some hexT,
              hsv := some (rgb_to_hsv r g b), hls := some (rgb_to_hls r g b),
              yiq := some (rgb_to_yiq r g b), color := some rgb }
    | _ => .error (.typeError "rgb_to_hsv takes 3 positional arguments")

/-- `Color.from_hex_triplet`: regex-validates the string, stores the
lowercased groups as `hex_triplet`, decodes each group with
`int(-, base=16)`, and derives the rest (which overwrites `hex_triplet`
with the unpadded form). -/
def Color.from_hex_triplet (s : String) : Except PyErr Color :=
  match hexMatch s with
  | some (g1, g2, g3) =>
      let hexLower := String.mk ((g1 ++ g2 ++ g3).map Char.toLower)
      let rgb : List ℚ :=
        [(hexPairVal g1 : ℕ), (hexPairVal g2 : ℕ), (hexPairVal g3 : ℕ)]
      Color.from_self_rgb rgb (some hexLower)
  | none => .error (.valueError "Invalid hex color.")

/-- `Color.from_rgb`: raises `ValueError` when a channel is outside
`[0, 255]`, otherwise stores the tuple unchanged (no rounding, no length
check) and derives the rest. -/
def Color.from_rgb (rgb : List ℚ) : Except PyErr Color :=
  if rgb.all (fun c => decide (0 ≤ c) && decide (c ≤ 255)) then
    Color.from_self_rgb rgb none
  else .error (.valueError "Color values must be between 0 and 255")

/-- `Color.from_hsv` as written: its first statement is `if s > 1`, and no
name `s` is in scope (the tuple argument is never unpacked), so every call
raises `NameError` before anything else happens. -/
def Color.from_hsv (hsv : List ℚ) : Except PyErr Color :=
  .error (.nameError "s")

/-- `Color.from_hls` as written: it calls `hls_to_rgb(*hls)` unqualified,
and only the `colorsys` module is imported, so the lookup raises
`NameError`. -/
def Color.from_hls (hls : List ℚ) : Except PyErr Color :=
  .error (.nameError "hls_to_rgb")

/-- `Color.from_yiq` as written: it calls `hsv_to_rgb(*yiq)` — the HSV
transform, not a YIQ inverse — and the unqualified name raises
`NameError`. -/
def Color.from_yiq (yiq : List ℚ) : Except PyErr Color :=
  .error (.nameError "hsv_to_rgb")

/-- The keyword arguments of `Color.__init__`, all defaulting to
Python `None`. -/
structure InitArgs where
  hex_triplet : Option String := none
  rgb : Option (List ℚ) := none
  hsv : Option (List ℚ) := none
  hls : Option (List ℚ) := none
  yiq : Option (List ℚ) := none
deriving DecidableEq

/-- Python truthiness of an optional string argument: `None` and the empty
string are falsy. -/
def truthyStr : Option String → Bool
  | none => false
  | some s => !s.isEmpty

/-- Python truthiness of an optional tuple argument: `None` and the empty
tuple are falsy. -/
def truthyTuple : Option (List ℚ) → Bool
  | none => false
  | some t => !t.isEmpty

/-- `DEFAULT_COLOR` of the module. -/
def DEFAULT_COLOR : String := "#333333"

/-- `Color.__init__`: dispatches on the first truthy argument in the order
`hex_triplet`, `rgb`, `hsv`, `hls`, `yiq`; with no truthy argument it falls
back to `from_hex_triplet(DEFAULT_COLOR)`. -/
def Color.init (a : InitArgs) : Except PyErr Color :=
  if truthyStr a.hex_triplet then Color.from_hex_triplet (a.hex_triplet.getD "")
  else if truthyTuple a.rgb then Color.from_rgb (a.rgb.getD [])
  else if truthyTuple a.hsv then Color.from_hsv (a.hsv.getD [])
  else if truthyTuple a.hls then Color.from_hls (a.hls.getD [])
  else if truthyTuple a.yiq then Color.from_yiq (a.yiq.getD [])
  else Color.from_hex_triplet DEFAULT_COLOR

/-- `Color.randomize`: draws three integers uniformly from `[0, 255]`
(`random.randrange(256)`) and rebuilds through `from_rgb`; the ambient
random source is modelled as an explicit argument. -/
def Color.randomize (draw : Fin 256 × Fin 256 × Fin 256) : Except PyErr Color :=
  Color.from_rgb [((draw.1 : ℕ) : ℚ), ((draw.2.1 : ℕ) : ℚ), ((draw.2.2 : ℕ) : ℚ)]

/-- Per-channel formula in `multiply`'s lambda: `(x * y) / 255.0`. -/
def multiply_channel (x y : ℚ) : ℚ := x * y / 255

/-- Per-channel formula in `add`'s lambda: `min(255, (x + y))`. -/
def add_channel (x y : ℚ) : ℚ := min 255 (x + y)

/-- Per-channel formula written in `subtract`'s lambda: `max(255, (x - y))`
— max against 255, where the commented-out draft in the same method body
writes `max(0, ...)`. -/
def subtract_channel (x y : ℚ) : ℚ := max 255 (x - y)

/-- Per-channel formula written in `screen`'s lambda: textually the same
`max(255, (x - y))` as `subtract`, not the screen formula that sits in the
dead code after the `return`. -/
def screen_channel (x y : ℚ) : ℚ := max 255 (x - y)

/-- Per-channel formula in `divide`'s lambda: `x / float(y)`. -/
def divide_channel (x y : ℚ) : ℚ := x / y

/-- Per-channel formula in `difference`'s return expression:
`abs(x - y)`. -/
def difference_channel (x y : ℚ) : ℚ := |x - y|

/-- The `TypeError` message for a two-parameter lambda that receives one
positional argument. -/
def lambdaArityMsg : String :=
  "lambda missing 1 required positional argument: y"

/-- The `TypeError` message for `map` called with no iterable. -/
def mapOneArgMsg : String := "map must have at least two arguments"

/-- Python `tuple(map(f, zip(xs, ys)))` where `f` is a two-parameter
lambda, the shape shared by `multiply`, `add`, `subtract` and `screen`:
`map` is given a single iterable, so it passes each zipped pair to `f` as
one positional argument, and forcing the first element raises `TypeError`;
only an empty zip yields the empty tuple. -/
def tupleMap2Zip (_f : ℚ → ℚ → ℚ) (xs ys : List ℚ) : Except PyErr (List ℚ) :=
  match xs, ys with
  | [], _ => .ok []
  | _, [] => .ok []
  | _ :: _, _ :: _ => .error (.typeError lambdaArityMsg)

/-- `Color.multiply`: `Color(rgb=tuple(map(lambda x, y: (x * y) / 255.0,
zip(self.rgb, other.rgb))))`. -/
def Color.multiply (self other : Color) : Except PyErr Color := do
  let t ← tupleMap2Zip multiply_channel self.rgb other.rgb
  Color.init { rgb := some t }

/-- `Color.add`: `Color(rgb=tuple(map(lambda x, y: min(255, (x + y)),
zip(self.rgb, other.rgb))))`. -/
def Color.add (self other : Color) : Except PyErr Color := do
  let t ← tupleMap2Zip add_channel self.rgb other.rgb
  Color.init { rgb := some t }

/-- `Color.subtract`: `Color(rgb=tuple(map(lambda x, y: max(255, (x - y)),
zip(self.rgb, other.rgb))))`. -/
def Color.subtract (self other : Color) : Except PyErr Color := do
  let t ← tupleMap2Zip subtract_channel self.rgb other.rgb
  Color.init { rgb := some t }

/-- `Color.screen` as written: the live `return` has the same shape and
formula as `subtract`; the standard screen formula below it is dead
code. -/
def Color.screen (self other : Color) : Except PyErr Color := do
  let t ← tupleMap2Zip screen_channel self.rgb other.rgb
  Color.init { rgb := some t }

/-- `Color.divide`: checks the divisor tuple for a zero channel and raises
`ZeroDivisionError`; its `return` expression is malformed — a stray closing
parenthesis (a syntax error as written), and even reading past it `map`
receives only the lambda — so the nonzero path raises instead of building
a color. -/
def Color.divide (self other : Color) : Except PyErr Color :=
  let other_rgb := other.rgb
  if (0 : ℚ) ∈ other_rgb then .error .zeroDivisionError
  else .error (.typeError mapOneArgMsg)

/-- `Color.difference` as written: its return expression calls `RGBColor`,
a name whose class definition is commented out, so the lookup raises
`NameError` before the `abs` formulas are evaluated. -/
def Color.difference (_self _other : Color) : Except PyErr Color :=
  .error (.nameError "RGBColor")

/-- `Color.overlay`: `self.screen(self.multiply(other))`; the inner
`multiply` is evaluated first. -/
def Color.overlay (self other : Color) : Except PyErr Color := do
  let m ← self.multiply other
  self.screen m

/-- `Color.invert`: `self.difference(RGBColor(255, 255, 255))`; building
the argument evaluates the undefined name `RGBColor` first. -/
def Color.invert (_self : Color) : Except PyErr Color :=
  .error (.nameError "RGBColor")

/-- `Color.__eq__` as written reads `self.rgb.red`, and a tuple has no
attribute `red`, so comparison raises `AttributeError`. -/
def Color.eq (_self _other : Color) : Except PyErr Bool :=
  .error (.attributeError "red")

/-- `Color.__str__`: joins `str` of the values of `self.color` with
a comma and space. -/
def Color.str (self : Color) : Except PyErr String :=
  match self.color with
  | some t => .ok (String.intercalate ", " (t.map pyStrQ))
  | none => .error (.attributeError "color")

/-- The `ColorWheel` generator: a single mutable phase scalar. -/
structure ColorWheel where
  phase : ℚ
deriving DecidableEq

/-- `ColorWheel.__init__`: subtracts 1 from the starting value once when it
is `>= 1` (the comment in the source: a 1.1 shift is identical to 0.1). -/
def ColorWheel.create (start : ℚ) : ColorWheel :=
  { phase := if 1 ≤ start then start - 1 else start }

/-- `ColorWheel.next` as written: its first statement evaluates
`random_.random()`, and no name `random_` is in scope (the module imports
`random`), so every call raises `NameError` before the phase is touched;
the failed call leaves the wheel unchanged. -/
def ColorWheel.next (_w : ColorWheel) : Except PyErr (Color × ColorWheel) :=
  .error (.nameError "random_")

/-- The phase update written in `ColorWheel.next`: add the drawn shift,
then subtract 1 once if the sum reached 1. -/
def ColorWheel.step (phase shift : ℚ) : ℚ :=
  let p := phase + shift
  if 1 ≤ p then p - 1 else p

/-- Written from the claims: `clamp(z, 0, 255)`, the saturating bound the
spec prescribes for the arithmetic operations. -/
def spec_clamp (z : ℚ) : ℚ := min 255 (max 0 z)

/-!
## Theorems

`Rat.add`, `Rat.mul`, `Rat.sub` and `Rat.inv` are `irreducible` in
Batteries, which blocks `decide` at elaboration time; the kernel is not
affected.  We make them semireducible locally so concrete rational
arithmetic evaluates.
-/

attribute [local semireducible] Rat.add Rat.mul Rat.sub Rat.inv

/-- A hex digit maps under `Nat.digitChar ∘ hexDigitVal` to its own
lowercase form, and its value is below 16. -/
theorem hexDigit_char_facts (c : Char) (h : isHexDigit c = true) :
    Nat.digitChar (hexDigitVal c) = c.toLower ∧ hexDigitVal c < 16 := by
  have h' : c ∈ ("0123456789abcdefABCDEF").toList := of_decide_eq_true h
  fin_cases h' <;> exact ⟨by decide, by decide⟩

/-- One step of `Nat.toDigitsCore` on a value below the base. -/
theorem toDigitsCore_small (f n : ℕ) (ds : List Char) (hf : 0 < f) (hn : n < 16) :
    Nat.toDigitsCore 16 f n ds = Nat.digitChar n :: ds := by
  match f, hf with
  | f + 1, _ =>
    show Nat.toDigitsCore 16 (f + 1) n ds = _
    unfold Nat.toDigitsCore
    rw [Nat.mod_eq_of_lt hn, Nat.div_eq_of_lt hn]
    simp

/-- `Nat.toDigits` of a two-digit hex value is its two hex digits. -/
theorem toDigits_two_digits (v : ℕ) (h1 : 16 ≤ v) (h2 : v < 256) :
    Nat.toDigits 16 v = [Nat.digitChar (v / 16), Nat.digitChar (v % 16)] := by
  unfold Nat.toDigits
  have hv : 0 < v / 16 := Nat.div_pos h1 (by norm_num)
  have hlt : v / 16 < 16 := (Nat.div_lt_iff_lt_mul (by norm_num)).mpr (by omega)
  show Nat.toDigitsCore 16 (v + 1) v [] = _
  unfold Nat.toDigitsCore
  rw [if_neg (by omega)]
  rw [toDigitsCore_small v (v / 16) _ (by omega) hlt]

/-- `format(-, "x")` of a two-hex-digit group value prints the lowercase
form of the group, provided the value is at least 16 (no zero padding is
performed, so a smaller value would print a single digit). -/
theorem pyFormatHex_group (x y : Char) (hx : isHexDigit x = true)
    (hy : isHexDigit y = true) (h16 : 16 ≤ hexPairVal [x, y]) :
    pyFormatHex ((hexPairVal [x, y] : ℕ) : ℚ) =
      .ok (String.mk [x.toLower, y.toLower]) := by
  obtain ⟨ex, bx⟩ := hexDigit_char_facts x hx
  obtain ⟨ey, by'⟩ := hexDigit_char_facts y hy
  have hval : hexPairVal [x, y] = 16 * hexDigitVal x + hexDigitVal y := by
    simp [hexPairVal]
  have hlt : hexPairVal [x, y] < 256 := by omega
  have hdiv : hexPairVal [x, y] / 16 = hexDigitVal x := by omega
  have hmod : hexPairVal [x, y] % 16 = hexDigitVal y := by omega
  unfold pyFormatHex
  rw [if_pos (by simp), if_neg (by simp)]
  rw [show ((hexPairVal [x, y] : ℕ) : ℚ).num.toNat = hexPairVal [x, y] by simp]
  rw [toDigits_two_digits _ h16 hlt, hdiv, hmod, ex, ey]

/-- Python `str` of an integer channel value prints its decimal form. -/
theorem pyStrQ_natCast (v : ℕ) : pyStrQ ((v : ℕ) : ℚ) = toString ((v : ℕ) : ℤ) := by
  simp [pyStrQ]

/-- `mapM` of `pyFormatHex` over a three-channel tuple. -/
theorem mapM_pyFormatHex3 (a b c : ℚ) (sa sb sc : String)
    (ha : pyFormatHex a = .ok sa) (hb : pyFormatHex b = .ok sb)
    (hc : pyFormatHex c = .ok sc) :
    [a, b, c].mapM pyFormatHex = .ok [sa, sb, sc] := by
  simp only [List.mapM, List.mapM.loop, ha, hb, hc]
  rfl

/-- A successful `hexMatch` certifies that each group character is a hex
digit. -/
theorem hexMatch_digits (s : String) (c1 c2 c3 c4 c5 c6 : Char)
    (hm : hexMatch s = some ([c1, c2], [c3, c4], [c5, c6])) :
    isHexDigit c1 = true ∧ isHexDigit c2 = true ∧ isHexDigit c3 = true
      ∧ isHexDigit c4 = true ∧ isHexDigit c5 = true ∧ isHexDigit c6 = true := by
  unfold hexMatch at hm
  dsimp only at hm
  split at hm
  · split at hm
    · rename_i a b c d e f heq hcond
      simp only [Option.some.injEq, Prod.mk.injEq, List.cons.injEq, and_true] at hm
      obtain ⟨⟨rfl, rfl⟩, ⟨rfl, rfl⟩, ⟨rfl, rfl⟩⟩ := hm
      simp only [List.all_cons, List.all_nil, Bool.and_eq_true, and_true] at hcond
      exact hcond
    · exact absurd hm (by simp)
  · exact absurd hm (by simp)

/-- Claim C1: the spec says `subtract` computes each channel as
`clamp(x - y, 0, 255)`.  The code raises `TypeError` on every call (a
two-parameter lambda is mapped over a single iterable of zipped pairs),
and the formula it writes is `max(255, x - y)` — the inverted clamp that
yields 255 on every in-range channel — where the commented draft in the
same method and the spec both prescribe the saturating clamp: at
channels x = 100, y = 50 the written formula gives 255, the claim
demands 50. -/
theorem subtract_inverted_clamp_bug :
    (do let a ← Color.init { rgb := some [100, 100, 100] }
        let b ← Color.init { rgb := some [0, 50, 100] }
        a.subtract b) = .error (.typeError lambdaArityMsg)
    ∧ List.zipWith subtract_channel [100, 100, 100] [0, 50, 100] = [255, 255, 255]
    ∧ spec_clamp (100 - 50) = 50
    ∧ subtract_channel 100 50 ≠ spec_clamp (100 - 50) := by decide

/-- Claim C2: the spec says `divide` fails with a division error exactly
when a divisor channel is 0 and otherwise returns the quotient color with
integer channels.  The zero check is present and raises as claimed, but
the nonzero path cannot return a color: the `return` expression is
malformed (stray parenthesis; reading past it, `map` gets one argument),
so `divide((100,100,100), (1,2,4))` raises `TypeError`; moreover the
written lambda `x / float(y)` performs no rounding (100/3 is not an
integer). -/
theorem divide_bug :
    (do let a ← Color.init { rgb := some [100, 100, 100] }
        let b ← Color.init { rgb := some [0, 50, 50] }
        a.divide b) = .error .zeroDivisionError
    ∧ (do let a ← Color.init { rgb := some [100, 100, 100] }
          let b ← Color.init { rgb := some [1, 2, 4] }
          a.divide b) = .error (.typeError mapOneArgMsg)
    ∧ (divide_channel 100 3).den = 3 := by decide

/-- Claim C3: the spec's invariant says every color produced by the
constructors and operations has an integer rgb triple in [0, 255].  The
operations cannot establish it: `multiply` raises `TypeError` on every
call, and its written channel formula `(x * y) / 255.0` produces
non-integers (1·1/255) that `from_rgb` would store unrounded, so the
operation layer neither produces colors nor would produce integer
channels. -/
theorem rgb_invariant_bug :
    (do let a ← Color.init { rgb := some [1, 1, 1] }
        let b ← Color.init { rgb := some [1, 1, 1] }
        a.multiply b) = .error (.typeError lambdaArityMsg)
    ∧ multiply_channel 1 1 = 1/255
    ∧ (multiply_channel 1 1).den ≠ 1 := by decide

/-- Claim C4 counterexample: `fromHex("#010203")` stores `hex_triplet`
`"123"` (the per-channel hex join is not zero padded), not `"010203"`,
and its textual form is the decimal `"1, 2, 3"`, not `"#010203"`. -/
theorem hex_string_form_cex :
    (Color.from_hex_triplet "#010203").map Color.hex_triplet = .ok (some "123")
    ∧ ((Color.from_hex_triplet "#010203").bind Color.str) = .ok "1, 2, 3"
    ∧ (some "123" ≠ some "010203" ∧ "1, 2, 3" ≠ "#010203") := by decide

/-- Claim C4 (amended): for every valid 6-digit hex string (optional `#`,
case-insensitive) all of whose channels are at least 16, `fromHex` stores
in `hex_triplet` the unprefixed lowercase 6-character form of the input;
for channels below 16 the stored field drops the leading zero of the
group (see the counterexample), and the textual string form is always the
decimal channel values joined by a comma and space, never `#` plus the
triplet. -/
theorem hex_round_trip_amended (s : String) (c1 c2 c3 c4 c5 c6 : Char)
    (hm : hexMatch s = some ([c1, c2], [c3, c4], [c5, c6]))
    (h1 : 16 ≤ hexPairVal [c1, c2]) (h2 : 16 ≤ hexPairVal [c3, c4])
    (h3 : 16 ≤ hexPairVal [c5, c6]) :
    ∃ c, Color.from_hex_triplet s = .ok c
      ∧ c.hex_triplet = some (String.mk ([c1, c2, c3, c4, c5, c6].map Char.toLower))
      ∧ Color.str c = .ok (String.intercalate ", "
          ([hexPairVal [c1, c2], hexPairVal [c3, c4], hexPairVal [c5, c6]].map
            (fun v => toString ((v : ℕ) : ℤ)))) := by
  obtain ⟨hx1, hx2, hx3, hx4, hx5, hx6⟩ := hexMatch_digits s c1 c2 c3 c4 c5 c6 hm
  have p1 := pyFormatHex_group c1 c2 hx1 hx2 h1
  have p2 := pyFormatHex_group c3 c4 hx3 hx4 h2
  have p3 := pyFormatHex_group c5 c6 hx5 hx6 h3
  unfold Color.from_hex_triplet
  rw [hm]
  unfold Color.from_self_rgb
  dsimp only
  rw [if_neg (by simp)]
  rw [mapM_pyFormatHex3 _ _ _ _ _ _ p1 p2 p3]
  refine ⟨_, rfl, rfl, ?_⟩
  unfold Color.str
  dsimp only
  simp only [List.map_cons, List.map_nil, pyStrQ_natCast]

/-- Claim C4 witness: the amended round trip at the concrete input
`"#336699"` — channels (51, 102, 153), stored triplet `"336699"`, string
form `"51, 102, 153"`. -/
theorem hex_round_trip_witness :
    (hexMatch "#336699" = some (['3', '3'], ['6', '6'], ['9', '9'])
      ∧ 16 ≤ hexPairVal ['3', '3'] ∧ 16 ≤ hexPairVal ['6', '6'] ∧ 16 ≤ hexPairVal ['9', '9'])
    ∧ ∃ c, Color.from_hex_triplet "#336699" = .ok c
      ∧ c.hex_triplet = some (String.mk (['3', '3', '6', '6', '9', '9'].map Char.toLower))
      ∧ Color.str c = .ok (String.intercalate ", "
          ([hexPairVal ['3', '3'], hexPairVal ['6', '6'], hexPairVal ['9', '9']].map
            (fun v => toString ((v : ℕ) : ℤ)))) :=
  ⟨⟨by decide, by decide, by decide, by decide⟩,
   hex_round_trip_amended "#336699" '3' '3' '6' '6' '9' '9' (by decide) (by decide)
     (by decide) (by decide)⟩

/-- Claim C5: the spec says `fromHsv(0, 1, 1)` validates s, v ≤ 1, wraps
the hue and converts to rgb (255, 0, 0).  The method's first statement
reads the undefined name `s` (the tuple argument is never unpacked), so
every call — valid input or not — raises `NameError`; and the conversion
it names stores the unscaled [0, 1] triple (1, 0, 0), never scaling to
(255, 0, 0). -/
theorem from_hsv_bug :
    Color.init { hsv := some [0, 1, 1] } = .error (.nameError "s")
    ∧ hsv_to_rgb 0 1 1 = (1, 0, 0) := by decide

/-- Claim C6: the spec says `fromYiq` must use the YIQ inverse transform
so that the derived `yiq` returns the input.  The method instead names
`hsv_to_rgb` — the HSV transform — and the unqualified lookup raises
`NameError` on every call; even the transform it names fails the round
trip: feeding `hsv_to_rgb(0.3, 0.1, 0.1)` back through `rgb_to_yiq` does
not return (0.3, 0.1, 0.1). -/
theorem from_yiq_bug :
    Color.init { yiq := some [3/10, 1/10, 1/10] } = .error (.nameError "hsv_to_rgb")
    ∧ (let rgbF := hsv_to_rgb (3/10) (1/10) (1/10)
       rgb_to_yiq rgbF.1 rgbF.2.1 rgbF.2.2 ≠ (3/10, 1/10, 1/10)) := by decide

/-- Claim C7: the spec says `add` computes `clamp(x + y, 0, 255)` per
channel, with `add((51,51,102), (102,51,51)) = (153,102,153)`.  The
written per-channel formula `min(255, x + y)` does agree with the clamp
on in-range channels and yields the claimed triple, but the method
raises `TypeError` on every call: the two-parameter lambda is mapped
over a single iterable of zipped pairs, so no color is ever returned. -/
theorem add_bug :
    (do let a ← Color.init { rgb := some [51, 51, 102] }
        let b ← Color.init { rgb := some [102, 51, 51] }
        a.add b) = .error (.typeError lambdaArityMsg)
    ∧ List.zipWith add_channel [51, 51, 102] [102, 51, 51] = [153, 102, 153]
    ∧ add_channel 51 102 = spec_clamp (51 + 102)
    ∧ add_channel 200 100 = spec_clamp (200 + 100) := by decide

/-- Claim C8: the spec says `invert(c) = difference(c, white)` and that
invert is an involution.  Both `invert` and `difference` raise
`NameError` on every call (`RGBColor`, the class they construct, is
commented out), so no inverted color exists; the `abs`-difference
formula in the dead expression would satisfy the involution, as the last
two conjuncts show at (10, 20, 30). -/
theorem invert_bug :
    ((Color.init { rgb := some [10, 20, 30] }).bind Color.invert)
      = .error (.nameError "RGBColor")
    ∧ ((Color.init { rgb := some [10, 20, 30] }).bind (fun c =>
        (Color.init { rgb := some [255, 255, 255] }).bind c.difference))
      = .error (.nameError "RGBColor")
    ∧ List.zipWith difference_channel [10, 20, 30] [255, 255, 255] = [245, 235, 225]
    ∧ List.zipWith difference_channel
        (List.zipWith difference_channel [10, 20, 30] [255, 255, 255])
        [255, 255, 255] = [10, 20, 30] := by decide

/-- Claim C9 counterexample: the claim says every starting value `>= 1`
is normalized into [0, 1) at construction, but the constructor subtracts
1 only once: starting value 5/2 leaves phase 3/2, outside [0, 1). -/
theorem wheel_start_cex :
    (ColorWheel.create (5/2)).phase = 3/2 ∧ ¬ (ColorWheel.create (5/2)).phase < 1 := by
  unfold ColorWheel.create
  norm_num

/-- Claim C9 (amended): for starting values in [0, 2) the constructed
phase lies in [0, 1) (values in [1, 2) have 1 subtracted once; values at
or above 2 are not normalized into range — see the counterexample); the
phase update written in `advance` (add a shift from [0.1, 0.2), subtract
1 when the sum reaches 1) maps [0, 1) into [0, 1); and every `advance`
call as coded raises `NameError` (the random source name `random_` is
undefined) before the phase is touched, so the phase also remains in
[0, 1) after any number of advance calls. -/
theorem wheel_phase_amended (start p shift : ℚ) (h0 : 0 ≤ start) (h1 : start < 2)
    (hp0 : 0 ≤ p) (hp1 : p < 1) (hs0 : 1/10 ≤ shift) (hs1 : shift < 2/10) :
    (0 ≤ (ColorWheel.create start).phase ∧ (ColorWheel.create start).phase < 1)
    ∧ (0 ≤ ColorWheel.step p shift ∧ ColorWheel.step p shift < 1)
    ∧ ∀ w : ColorWheel, w.next = .error (.nameError "random_") := by
  refine ⟨?_, ?_, fun w => rfl⟩
  · unfold ColorWheel.create
    dsimp only
    split <;> constructor <;> linarith
  · unfold ColorWheel.step
    dsimp only
    split <;> constructor <;> linarith

/-- Claim C9 witness: the amended phase bound at start 3/2, phase 1/2,
shift 3/20. -/
theorem wheel_phase_witness :
    ((0 : ℚ) ≤ 3/2 ∧ (3/2 : ℚ) < 2 ∧ (0 : ℚ) ≤ 1/2 ∧ (1/2 : ℚ) < 1
      ∧ (1/10 : ℚ) ≤ 3/20 ∧ (3/20 : ℚ) < 2/10)
    ∧ ((0 ≤ (ColorWheel.create (3/2)).phase ∧ (ColorWheel.create (3/2)).phase < 1)
      ∧ (0 ≤ ColorWheel.step (1/2) (3/20) ∧ ColorWheel.step (1/2) (3/20) < 1)
      ∧ ∀ w : ColorWheel, w.next = .error (.nameError "random_")) :=
  ⟨⟨by norm_num, by norm_num, by norm_num, by norm_num, by norm_num, by norm_num⟩,
   wheel_phase_amended (3/2) (1/2) (3/20) (by norm_num) (by norm_num) (by norm_num)
     (by norm_num) (by norm_num) (by norm_num)⟩

/-- Claim C10: a falsy source argument (empty hex string, empty tuple for
rgb/hsv/hls/yiq) makes the constructor fall back to the default color
`#333333` without raising, indistinguishable from supplying no argument
at all: all five falsy calls equal the no-argument call, which succeeds
with rgb (51, 51, 51) and triplet `"333333"`. -/
theorem falsy_args_default :
    Color.init { hex_triplet := some "" } = Color.init {}
    ∧ Color.init { rgb := some [] } = Color.init {}
    ∧ Color.init { hsv := some [] } = Color.init {}
    ∧ Color.init { hls := some [] } = Color.init {}
    ∧ Color.init { yiq := some [] } = Color.init {}
    ∧ (Color.init {}).isOk = true
    ∧ (Color.init {}).map Color.rgb = .ok [51, 51, 51]
    ∧ (Color.init {}).map Color.hex_triplet = .ok (some "333333") := by decide

end Colors
